import Mathlib

/-!
# Verification of the planar-reflection component (src/js/Reflector.js)

Shallow embedding of the `Reflector` class over exact rational arithmetic.
Vectors, 4x4 and 3x3 matrices follow the three.js data layout: matrix
`elements` arrays are column-major, `Matrix4.set` takes its sixteen
arguments in row-major order.  JavaScript numbers are modelled as `ℚ`;
division by zero yields `0` in `ℚ` (noted at each definition where it can
arise — in every frame considered below the divisors are nonzero).

Two library computations route through square roots and are therefore not
expressible over `ℚ`:
* `Matrix4.extractRotation` divides each basis column by its length; the
  extracted rotation matrices therefore enter the model as inputs
  (`FrameInput.reflectorRotation`, `FrameInput.cameraRotation`), exact for
  the unit-column world matrices used in all concrete frames below.
* `Object3D.lookAt` / `updateMatrixWorld` produce the virtual camera's
  `matrixWorldInverse` by normalising basis vectors; that matrix enters the
  model as the input `FrameInput.virtualViewMatrix`, again exact for the
  axis-aligned concrete frames below.
-/

/-- three.js `Vector3` over exact rationals. -/
structure Vec3 where
  x : ℚ
  y : ℚ
  z : ℚ
deriving DecidableEq

/-- three.js `Vector4` over exact rationals. -/
structure Vec4 where
  x : ℚ
  y : ℚ
  z : ℚ
  w : ℚ
deriving DecidableEq

/-- three.js `Matrix4`: the sixteen entries of the column-major `elements`
array (`e0` is `elements[0]`, ..., `e15` is `elements[15]`). -/
structure Mat4 where
  e0 : ℚ
  e1 : ℚ
  e2 : ℚ
  e3 : ℚ
  e4 : ℚ
  e5 : ℚ
  e6 : ℚ
  e7 : ℚ
  e8 : ℚ
  e9 : ℚ
  e10 : ℚ
  e11 : ℚ
  e12 : ℚ
  e13 : ℚ
  e14 : ℚ
  e15 : ℚ
deriving DecidableEq

/-- three.js `Matrix3`: column-major `elements` array. -/
structure Mat3 where
  e0 : ℚ
  e1 : ℚ
  e2 : ℚ
  e3 : ℚ
  e4 : ℚ
  e5 : ℚ
  e6 : ℚ
  e7 : ℚ
  e8 : ℚ
deriving DecidableEq

/-- `Matrix4.set`: arguments in row-major order, stored column-major. -/
def Mat4.set (n11 n12 n13 n14 n21 n22 n23 n24 n31 n32 n33 n34 n41 n42 n43 n44 : ℚ) : Mat4 :=
  { e0 := n11, e1 := n21, e2 := n31, e3 := n41
    e4 := n12, e5 := n22, e6 := n32, e7 := n42
    e8 := n13, e9 := n23, e10 := n33, e11 := n43
    e12 := n14, e13 := n24, e14 := n34, e15 := n44 }

/-- Flat access to the column-major `elements` array, as `m.elements[i]`. -/
def Mat4.el (m : Mat4) (i : Fin 16) : ℚ :=
  match i.val with
  | 0 => m.e0
  | 1 => m.e1
  | 2 => m.e2
  | 3 => m.e3
  | 4 => m.e4
  | 5 => m.e5
  | 6 => m.e6
  | 7 => m.e7
  | 8 => m.e8
  | 9 => m.e9
  | 10 => m.e10
  | 11 => m.e11
  | 12 => m.e12
  | 13 => m.e13
  | 14 => m.e14
  | _ => m.e15

/-- `Matrix4.multiplyMatrices(a, b)` (the product `a * b`), transcribed from
the three.js source with its column-major index arithmetic. -/
def mat4Mul (a b : Mat4) : Mat4 :=
  { e0 := a.e0 * b.e0 + a.e4 * b.e1 + a.e8 * b.e2 + a.e12 * b.e3
    e4 := a.e0 * b.e4 + a.e4 * b.e5 + a.e8 * b.e6 + a.e12 * b.e7
    e8 := a.e0 * b.e8 + a.e4 * b.e9 + a.e8 * b.e10 + a.e12 * b.e11
    e12 := a.e0 * b.e12 + a.e4 * b.e13 + a.e8 * b.e14 + a.e12 * b.e15
    e1 := a.e1 * b.e0 + a.e5 * b.e1 + a.e9 * b.e2 + a.e13 * b.e3
    e5 := a.e1 * b.e4 + a.e5 * b.e5 + a.e9 * b.e6 + a.e13 * b.e7
    e9 := a.e1 * b.e8 + a.e5 * b.e9 + a.e9 * b.e10 + a.e13 * b.e11
    e13 := a.e1 * b.e12 + a.e5 * b.e13 + a.e9 * b.e14 + a.e13 * b.e15
    e2 := a.e2 * b.e0 + a.e6 * b.e1 + a.e10 * b.e2 + a.e14 * b.e3
    e6 := a.e2 * b.e4 + a.e6 * b.e5 + a.e10 * b.e6 + a.e14 * b.e7
    e10 := a.e2 * b.e8 + a.e6 * b.e9 + a.e10 * b.e10 + a.e14 * b.e11
    e14 := a.e2 * b.e12 + a.e6 * b.e13 + a.e10 * b.e14 + a.e14 * b.e15
    e3 := a.e3 * b.e0 + a.e7 * b.e1 + a.e11 * b.e2 + a.e15 * b.e3
    e7 := a.e3 * b.e4 + a.e7 * b.e5 + a.e11 * b.e6 + a.e15 * b.e7
    e11 := a.e3 * b.e8 + a.e7 * b.e9 + a.e11 * b.e10 + a.e15 * b.e11
    e15 := a.e3 * b.e12 + a.e7 * b.e13 + a.e11 * b.e14 + a.e15 * b.e15 }

def Vec3.sub (a b : Vec3) : Vec3 := ⟨a.x - b.x, a.y - b.y, a.z - b.z⟩

def Vec3.add (a b : Vec3) : Vec3 := ⟨a.x + b.x, a.y + b.y, a.z + b.z⟩

def Vec3.neg (a : Vec3) : Vec3 := ⟨-a.x, -a.y, -a.z⟩

def Vec3.dot (a b : Vec3) : ℚ := a.x * b.x + a.y * b.y + a.z * b.z

def Vec3.multiplyScalar (a : Vec3) (s : ℚ) : Vec3 := ⟨s * a.x, s * a.y, s * a.z⟩

/-- `Vector3.reflect(normal)`: reflect off the plane orthogonal to `n`
(the normal is assumed unit length), `v - 2 (v . n) n`. -/
def Vec3.reflect (v n : Vec3) : Vec3 := v.sub (n.multiplyScalar (2 * v.dot n))

/-- `Vector3.applyMatrix4`: homogeneous transform with perspective divide.
The divide is by `1` at every use in this development (rotation and rigid
matrices); in `ℚ`, `x * 0⁻¹ = 0` where JavaScript would produce NaN. -/
def Vec3.applyMatrix4 (v : Vec3) (m : Mat4) : Vec3 :=
  let w := (m.e3 * v.x + m.e7 * v.y + m.e11 * v.z + m.e15)⁻¹
  ⟨(m.e0 * v.x + m.e4 * v.y + m.e8 * v.z + m.e12) * w,
   (m.e1 * v.x + m.e5 * v.y + m.e9 * v.z + m.e13) * w,
   (m.e2 * v.x + m.e6 * v.y + m.e10 * v.z + m.e14) * w⟩

/-- `Vector3.applyMatrix3` (column-major 3x3). -/
def Vec3.applyMatrix3 (v : Vec3) (m : Mat3) : Vec3 :=
  ⟨m.e0 * v.x + m.e3 * v.y + m.e6 * v.z,
   m.e1 * v.x + m.e4 * v.y + m.e7 * v.z,
   m.e2 * v.x + m.e5 * v.y + m.e8 * v.z⟩

/-- `Matrix4.setFromMatrixPosition` source: the translation column. -/
def Mat4.position (m : Mat4) : Vec3 := ⟨m.e12, m.e13, m.e14⟩

def Vec4.dot (a b : Vec4) : ℚ := a.x * b.x + a.y * b.y + a.z * b.z + a.w * b.w

def Vec4.multiplyScalar (a : Vec4) (s : ℚ) : Vec4 := ⟨s * a.x, s * a.y, s * a.z, s * a.w⟩

/-- `Matrix3.setFromMatrix4`: the upper-left 3x3 block. -/
def mat3SetFromMatrix4 (m : Mat4) : Mat3 :=
  { e0 := m.e0, e1 := m.e1, e2 := m.e2
    e3 := m.e4, e4 := m.e5, e5 := m.e6
    e6 := m.e8, e7 := m.e9, e8 := m.e10 }

/-- `Matrix3.invert`, transcribed from the three.js cofactor formula.  When
the determinant is zero three.js returns the zero matrix; over `ℚ` the
factor `det⁻¹ = 0` produces the same zero matrix, so no branch is needed. -/
def mat3Invert (m : Mat3) : Mat3 :=
  let n11 := m.e0
  let n21 := m.e1
  let n31 := m.e2
  let n12 := m.e3
  let n22 := m.e4
  let n32 := m.e5
  let n13 := m.e6
  let n23 := m.e7
  let n33 := m.e8
  let t11 := n33 * n22 - n32 * n23
  let t12 := n32 * n13 - n33 * n12
  let t13 := n23 * n12 - n22 * n13
  let det := n11 * t11 + n21 * t12 + n31 * t13
  let detInv := det⁻¹
  { e0 := t11 * detInv
    e1 := (n31 * n23 - n33 * n21) * detInv
    e2 := (n32 * n21 - n31 * n22) * detInv
    e3 := t12 * detInv
    e4 := (n33 * n11 - n31 * n13) * detInv
    e5 := (n31 * n12 - n32 * n11) * detInv
    e6 := t13 * detInv
    e7 := (n21 * n13 - n23 * n11) * detInv
    e8 := (n22 * n11 - n21 * n12) * detInv }

/-- `Matrix3.transpose`. -/
def mat3Transpose (m : Mat3) : Mat3 :=
  { e0 := m.e0, e1 := m.e3, e2 := m.e6
    e3 := m.e1, e4 := m.e4, e5 := m.e7
    e6 := m.e2, e7 := m.e5, e8 := m.e8 }

/-- `Matrix3.getNormalMatrix`: inverse transpose of the upper-left 3x3. -/
def getNormalMatrix (m : Mat4) : Mat3 := mat3Transpose (mat3Invert (mat3SetFromMatrix4 m))

/-- `Math.sign`, with `Math.sign(0) = 0`. -/
def mathSign (x : ℚ) : ℚ := if 0 < x then 1 else if x < 0 then -1 else 0

/-- three.js `Plane`: unit normal and signed constant. -/
structure Plane where
  normal : Vec3
  constant : ℚ
deriving DecidableEq

/-- `Plane.setFromNormalAndCoplanarPoint`. -/
def Plane.setFromNormalAndCoplanarPoint (n p : Vec3) : Plane :=
  { normal := n, constant := -(p.dot n) }

/-- `Plane.applyMatrix4`.  The three.js source re-normalises the transformed
normal (a square root); for the rigid view matrices arising in this
development the transformed normal is already unit length, so the
normalisation is the identity and is dropped here. -/
def Plane.applyMatrix4 (pl : Plane) (m : Mat4) : Plane :=
  let normalMatrix := getNormalMatrix m
  let referencePoint := (pl.normal.multiplyScalar (-pl.constant)).applyMatrix4 m
  let n := pl.normal.applyMatrix3 normalMatrix
  { normal := n, constant := -(referencePoint.dot n) }

/-!
## Per-frame inputs (the data `onBeforeRender` reads)
-/

/-- Everything `Reflector.onBeforeRender` reads in one frame.  The two
rotation matrices stand for `Matrix4.extractRotation` applied to the
reflector's and the real camera's world matrices, and `virtualViewMatrix`
for the virtual camera's `matrixWorldInverse` produced by
`lookAt`/`updateMatrixWorld` (lines 91 and 95) — see the header comment for
why these three enter as inputs. -/
structure FrameInput where
  reflectorMatrixWorld : Mat4
  reflectorRotation : Mat4
  cameraWorldPosition : Vec3
  cameraRotation : Mat4
  cameraProjection : Mat4
  cameraFar : ℚ
  virtualViewMatrix : Mat4
  clipBias : ℚ
deriving DecidableEq

/-- Line 60: `reflectorWorldPosition.setFromMatrixPosition(scope.matrixWorld)`. -/
def reflectorWorldPositionOf (inp : FrameInput) : Vec3 := inp.reflectorMatrixWorld.position

/-- Lines 65 and 66: the surface's outward world normal, local `+Z` taken
through the rotation extracted from the reflector's world matrix. -/
def normalOf (inp : FrameInput) : Vec3 := Vec3.applyMatrix4 ⟨0, 0, 1⟩ inp.reflectorRotation

/-- Lines 68 and 72: the dot product tested by the back-face guard,
`(reflectorWorldPosition - cameraWorldPosition) . normal`. -/
def viewDotNormal (inp : FrameInput) : ℚ :=
  Vec3.dot ((reflectorWorldPositionOf inp).sub inp.cameraWorldPosition) (normalOf inp)

/-- Lines 74, 75 and 87: the virtual camera's position — the camera-to-surface
vector reflected across the normal, negated, then offset by the surface
position. -/
def virtualCameraPosition (inp : FrameInput) : Vec3 :=
  Vec3.add
    (Vec3.neg (Vec3.reflect ((reflectorWorldPositionOf inp).sub inp.cameraWorldPosition) (normalOf inp)))
    (reflectorWorldPositionOf inp)

/-- Lines 79 to 81: the real camera's forward-look point, local `(0,0,-1)`
through the camera's rotation, offset by the camera position. -/
def lookAtPositionOf (inp : FrameInput) : Vec3 :=
  Vec3.add (Vec3.applyMatrix4 ⟨0, 0, -1⟩ inp.cameraRotation) inp.cameraWorldPosition

/-- Lines 83 to 85: the virtual camera's look-at target (reflect, negate,
offset — same as the position derivation). -/
def virtualCameraTarget (inp : FrameInput) : Vec3 :=
  Vec3.add
    (Vec3.neg (Vec3.reflect ((reflectorWorldPositionOf inp).sub (lookAtPositionOf inp)) (normalOf inp)))
    (reflectorWorldPositionOf inp)

/-- Lines 88 to 90: the virtual camera's up vector — the camera's world up
reflected across the normal, with no negation. -/
def virtualCameraUp (inp : FrameInput) : Vec3 :=
  Vec3.reflect (Vec3.applyMatrix4 ⟨0, 1, 0⟩ inp.cameraRotation) (normalOf inp)

/-- Lines 99 to 104: the clip-space-to-texture-space bias matrix. -/
def biasMatrix : Mat4 :=
  Mat4.set (1/2) 0 0 (1/2) 0 (1/2) 0 (1/2) 0 0 (1/2) (1/2) 0 0 0 1

/-- Lines 99 to 107: the texture matrix, `bias * projection * view * world`.
At line 105 the virtual camera's projection matrix still holds the verbatim
copy of the real camera's projection made at line 96; the oblique clip
rewrite happens only afterwards (lines 116 to 130). -/
def textureMatrixOf (inp : FrameInput) : Mat4 :=
  mat4Mul (mat4Mul (mat4Mul biasMatrix inp.cameraProjection) inp.virtualViewMatrix)
    inp.reflectorMatrixWorld

/-- Line 111: the reflector plane in world space. -/
def worldReflectorPlane (inp : FrameInput) : Plane :=
  Plane.setFromNormalAndCoplanarPoint (normalOf inp) (reflectorWorldPositionOf inp)

/-- Lines 111 to 114: the reflector plane carried into the virtual camera's
view space and packed as a `Vector4`. -/
def viewClipPlane (inp : FrameInput) : Vec4 :=
  let rp := (worldReflectorPlane inp).applyMatrix4 inp.virtualViewMatrix
  ⟨rp.normal.x, rp.normal.y, rp.normal.z, rp.constant⟩

/-- Lines 118 to 121: the clip-space corner vector `q`, built from the prior
projection elements and the signs of the view-space normal. -/
def obliqueQ (inp : FrameInput) : Vec4 :=
  let cp := viewClipPlane inp
  let p := inp.cameraProjection
  ⟨(mathSign cp.x + p.e8) / p.e0,
   (mathSign cp.y + p.e9) / p.e5,
   -1,
   (1 + p.e10) / p.e14⟩

/-- Line 124: the view-space plane scaled by `2 / (clipPlane . q)`. -/
def scaledClipPlane (inp : FrameInput) : Vec4 :=
  (viewClipPlane inp).multiplyScalar (2 / Vec4.dot (viewClipPlane inp) (obliqueQ inp))

/-- Lines 96 and 127 to 130: the virtual camera's projection matrix — the
real camera's projection with `elements[2]`, `[6]`, `[10]`, `[14]`
overwritten by the scaled clip plane (with the `+ 1 - clipBias` offset on
`elements[10]`). -/
def adjustedProjection (inp : FrameInput) : Mat4 :=
  let cp := scaledClipPlane inp
  { inp.cameraProjection with
    e2 := cp.x, e6 := cp.y, e10 := cp.z + 1 - inp.clipBias, e14 := cp.w }

/-- The values `onBeforeRender` leaves on the virtual camera and the texture
matrix in a non-skipped frame. -/
structure FrameEffects where
  virtualPosition : Vec3
  virtualUp : Vec3
  virtualTarget : Vec3
  virtualFar : ℚ
  textureMatrix : Mat4
  projectionMatrix : Mat4
deriving DecidableEq

/-- Lines 74 to 130: the pure part of a non-skipped frame. -/
def frameEffects (inp : FrameInput) : FrameEffects :=
  { virtualPosition := virtualCameraPosition inp
    virtualUp := virtualCameraUp inp
    virtualTarget := virtualCameraTarget inp
    virtualFar := inp.cameraFar
    textureMatrix := textureMatrixOf inp
    projectionMatrix := adjustedProjection inp }

/-!
## The renderer interaction (lines 133 to 160)
-/

/-- Which camera a `renderer.render(scene, _)` call was issued with. -/
inductive Cam
  | virtual
  | real
deriving DecidableEq

/-- The host renderer's mutable flags touched by `onBeforeRender`. -/
structure RendererState where
  target : Option ℕ
  xrEnabled : Bool
  shadowAutoUpdate : Bool
  blending : ℤ
deriving DecidableEq

/-- A log entry for one `renderer.render` call: the camera it was issued
with, the renderer flags in force at that moment, whether the reflector
surface was visible, and the projection matrix of the camera used. -/
structure RenderEvent where
  cam : Cam
  target : Option ℕ
  xrEnabled : Bool
  shadowAutoUpdate : Bool
  surfaceVisible : Bool
  projection : Mat4
deriving DecidableEq

/-- Host-side state observable from `onBeforeRender`: the renderer flags,
the reflector surface's visibility flag, and the log of render calls. -/
structure HostState where
  renderer : RendererState
  surfaceVisible : Bool
  events : List RenderEvent
deriving DecidableEq

/-- Handle standing for the reflector's own `WebGLRenderTarget`. -/
def reflectorRT : ℕ := 0

/-- Lines 133 to 160, step by step in source order:
`setRenderTarget(renderTarget)`; `state.setBlending(0)`;
`render(scene, virtualCamera)`; `setRenderTarget(null)`;
`currentRenderTarget = getRenderTarget()` (now `null`); save the XR and
shadow flags; clear both flags; `setRenderTarget(currentRenderTarget)`;
restore both flags; hide the surface; `render(scene, camera)`; unhide. -/
def renderSection (inp : FrameInput) (fx : FrameEffects) (host : HostState) : HostState :=
  let r0 := host.renderer
  let r1 := { r0 with target := some reflectorRT }
  let r2 := { r1 with blending := 0 }
  let ev1 : RenderEvent :=
    { cam := Cam.virtual, target := r2.target, xrEnabled := r2.xrEnabled,
      shadowAutoUpdate := r2.shadowAutoUpdate, surfaceVisible := host.surfaceVisible,
      projection := fx.projectionMatrix }
  let r3 := { r2 with target := none }
  let currentRenderTarget := r3.target
  let currentXrEnabled := r3.xrEnabled
  let currentShadowAutoUpdate := r3.shadowAutoUpdate
  let r4 := { r3 with xrEnabled := false, shadowAutoUpdate := false }
  let r5 := { r4 with target := currentRenderTarget }
  let r6 := { r5 with xrEnabled := currentXrEnabled, shadowAutoUpdate := currentShadowAutoUpdate }
  let ev2 : RenderEvent :=
    { cam := Cam.real, target := r6.target, xrEnabled := r6.xrEnabled,
      shadowAutoUpdate := r6.shadowAutoUpdate, surfaceVisible := false,
      projection := inp.cameraProjection }
  { renderer := r6, surfaceVisible := true, events := (host.events ++ [ev1]) ++ [ev2] }

/-- Lines 58 to 162: the whole hook.  Returns `none` and the untouched host
state when the back-face guard at line 72 fires (`view . normal > 0`),
otherwise the frame effects together with the mutated host state. -/
def onBeforeRender (inp : FrameInput) (host : HostState) : Option FrameEffects × HostState :=
  if 0 < viewDotNormal inp then (none, host)
  else (some (frameEffects inp), renderSection inp (frameEffects inp) host)

/-- The render call logged for line 137 (`renderer.render(scene, virtualCamera)`):
issued with the reflector's render target bound, the renderer's entry XR and
shadow flags still in force, and the surface still visible. -/
def offscreenRenderEvent (fx : FrameEffects) (host : HostState) : RenderEvent :=
  { cam := Cam.virtual, target := some reflectorRT, xrEnabled := host.renderer.xrEnabled,
    shadowAutoUpdate := host.renderer.shadowAutoUpdate, surfaceVisible := host.surfaceVisible,
    projection := fx.projectionMatrix }

/-- The render call logged for line 158 (`renderer.render(scene, camera)`):
issued by the hook itself with the real camera, the surface hidden, and the
render target forced to `null`. -/
def mainRenderEvent (inp : FrameInput) (host : HostState) : RenderEvent :=
  { cam := Cam.real, target := none, xrEnabled := host.renderer.xrEnabled,
    shadowAutoUpdate := host.renderer.shadowAutoUpdate, surfaceVisible := false,
    projection := inp.cameraProjection }

/-!
## The oblique clip adjustment as the specification words it (section 4.2)
-/

/-- The oblique-clip rewrite exactly as section 4.2 of the specification
states it, as a standalone function of the prior projection matrix, the
view-space plane and the bias: build `q` from the (8,9,10,14) elements and
the sign of the plane normal's x and y, scale the plane by
`2 / (plane . q)`, and overwrite elements (2,6,10,14) with the scaled
plane's `(x, y, z + 1 - clipBias, w)`. -/
def obliqueSpecAdjust (p : Mat4) (plane : Vec4) (bias : ℚ) : Mat4 :=
  let q : Vec4 :=
    ⟨(mathSign plane.x + p.e8) / p.e0,
     (mathSign plane.y + p.e9) / p.e5,
     -1,
     (1 + p.e10) / p.e14⟩
  let s := plane.multiplyScalar (2 / Vec4.dot plane q)
  { p with e2 := s.x, e6 := s.y, e10 := s.z + 1 - bias, e14 := s.w }

/-!
## Concrete frames

`sampleInput` is a fully worked axis-aligned frame, chosen so that every
library step parametrised away above (rotation extraction, look-at,
plane-normal normalisation) is exact: the reflector sits at the origin with
identity world matrix (world normal `(0,0,1)`), the real camera sits at
`(0,0,5)` with identity orientation, and the projection is the perspective
matrix for a 90-degree frustum with near 1 and far 3.  The mirror-camera
derivation then puts the virtual camera at `(0,0,-5)` looking at
`(0,0,-4)` with up `(0,1,0)`; its world matrix has columns
`(-1,0,0), (0,1,0), (0,0,-1), (0,0,-5)` and `virtualViewMatrix` below is
its inverse (rows `(-1,0,0,0), (0,1,0,0), (0,0,-1,-5), (0,0,0,1)`). -/
def identityMat4 : Mat4 := Mat4.set 1 0 0 0 0 1 0 0 0 0 1 0 0 0 0 1

def sampleInput : FrameInput :=
  { reflectorMatrixWorld := identityMat4
    reflectorRotation := identityMat4
    cameraWorldPosition := ⟨0, 0, 5⟩
    cameraRotation := identityMat4
    cameraProjection := Mat4.set 1 0 0 0 0 1 0 0 0 0 (-2) (-3) 0 0 (-1) 0
    cameraFar := 3
    virtualViewMatrix := Mat4.set (-1) 0 0 0 0 1 0 0 0 0 (-1) (-5) 0 0 0 1
    clipBias := 0 }

/-- Same scene as `sampleInput` but with the camera moved to `(1,0,0)`:
exactly on the mirror plane, so the camera-to-surface vector `(-1,0,0)` has
dot product `0` with the normal `(0,0,1)`. -/
def onPlaneInput : FrameInput :=
  { sampleInput with cameraWorldPosition := ⟨1, 0, 0⟩ }

/-- Same scene as `sampleInput` but with the camera behind the mirror at
`(0,0,-5)`: the dot product is `5 > 0` and the guard fires. -/
def behindMirrorInput : FrameInput :=
  { sampleInput with cameraWorldPosition := ⟨0, 0, -5⟩ }

/-- A host state whose renderer enters the hook with a bound render target
(handle `7`), XR enabled and shadow auto-update enabled. -/
def entryHost : HostState :=
  { renderer := { target := some 7, xrEnabled := true, shadowAutoUpdate := true, blending := 1 }
    surfaceVisible := true
    events := [] }

/-- A host state with nothing bound and no render calls logged yet. -/
def hostEmpty : HostState :=
  { renderer := { target := none, xrEnabled := false, shadowAutoUpdate := true, blending := 1 }
    surfaceVisible := true
    events := [] }

/-- World matrix of a horizontal mirror at `y = 0`: rotation by -90 degrees
about `x`, which carries the local `+Z` normal to the world normal
`(0,1,0)`.  Its columns are unit length, so it equals its own extracted
rotation. -/
def horizontalMirrorMatrix : Mat4 := Mat4.set 1 0 0 0 0 0 1 0 0 (-1) 0 0 0 0 0 1

/-- The frame of the end-to-end scenario in section 8 of the specification:
horizontal mirror at `y = 0` with normal `(0,1,0)`, real camera at
`(0,5,10)`.  The camera's orientation and the remaining inputs are left
arbitrary. -/
def c7Input (camRot proj view : Mat4) (far bias : ℚ) : FrameInput :=
  { reflectorMatrixWorld := horizontalMirrorMatrix
    reflectorRotation := horizontalMirrorMatrix
    cameraWorldPosition := ⟨0, 5, 10⟩
    cameraRotation := camRot
    cameraProjection := proj
    cameraFar := far
    virtualViewMatrix := view
    clipBias := bias }

/-!
## Construction (lines 5 to 56) and the shader uniforms (lines 175 to 192)
-/

/-- The `options` object of the constructor.  `none` models an absent
property. -/
structure ReflectorOptions where
  color : Option ℕ := none
  textureWidth : Option ℕ := none
  textureHeight : Option ℕ := none
  clipBias : Option ℚ := none
  opacity : Option ℚ := none
  transparent : Option Bool := none
deriving DecidableEq

/-- JavaScript `options.x || d` on a number: an absent property or the
falsy value `0` both fall back to the default. -/
def jsOrQ (o : Option ℚ) (d : ℚ) : ℚ :=
  match o with
  | none => d
  | some v => if v = 0 then d else v

/-- JavaScript `options.x || d` on a natural number. -/
def jsOrN (o : Option ℕ) (d : ℕ) : ℕ :=
  match o with
  | none => d
  | some v => if v = 0 then d else v

/-- Handle standing for `renderTarget.texture`. -/
def renderTargetTexture : ℕ := 0

/-- The uniform values of the reflector's `ShaderMaterial`, one field per
entry of `Reflector.ReflectorShader.uniforms` (lines 176 to 192). -/
structure ShaderUniforms where
  color : Option ℕ
  tDiffuse : Option ℕ
  textureMatrixBound : Bool
  opacity : ℚ
  floorTexture : Option ℕ
deriving DecidableEq

/-- `UniformsUtils.clone(shader.uniforms)` for the default
`Reflector.ReflectorShader`: `color`, `tDiffuse`, `floorTexture` null,
`textureMatrix` null, `opacity` preset to `0.3` (line 187). -/
def clonedDefaultUniforms : ShaderUniforms :=
  { color := none, tDiffuse := none, textureMatrixBound := false,
    opacity := 3/10, floorTexture := none }

/-- What construction produces, restricted to the observable configuration:
the resolved option values, the material's own properties, and the shader
uniform values after the wiring at lines 51 to 53. -/
structure ReflectorInstance where
  uniforms : ShaderUniforms
  materialOpacity : ℚ
  materialTransparent : Bool
  textureWidth : ℕ
  textureHeight : ℕ
  clipBias : ℚ
deriving DecidableEq

/-- Lines 16 to 53 of the constructor (with the default shader): resolve the
options, clone the shader uniforms, then assign `tDiffuse`, `color` and
`textureMatrix` — and only those three — on the cloned uniforms.  The
configured opacity and transparency go to the `ShaderMaterial` properties
(lines 47 and 48). -/
def mkReflector (o : ReflectorOptions) : ReflectorInstance :=
  let color := o.color.getD 0x7F7F7F
  let opacity := jsOrQ o.opacity 1
  let transparent := o.transparent.getD true
  let u0 := clonedDefaultUniforms
  let u := { u0 with
             tDiffuse := some renderTargetTexture
             color := some color
             textureMatrixBound := true }
  { uniforms := u
    materialOpacity := opacity
    materialTransparent := transparent
    textureWidth := jsOrN o.textureWidth 512
    textureHeight := jsOrN o.textureHeight 512
    clipBias := jsOrQ o.clipBias 0 }

/-!
## Disposal (lines 166 to 171)
-/

/-- Modelled from the spec: the release state of the two GPU-side resources
the instance owns.  The release semantics of `WebGLRenderTarget.dispose`
and `Material.dispose` are three.js library code, not part of src/; per the
disposal interface of the specification each call marks its resource
released, and releasing an already-released handle is harmless. -/
structure DisposeState where
  renderTargetDisposed : Bool
  materialDisposed : Bool
deriving DecidableEq

/-- `Reflector.dispose` (lines 166 to 171): release the render target, then
the material.  A total function — no exception path exists. -/
def dispose (_s : DisposeState) : DisposeState :=
  { renderTargetDisposed := true, materialDisposed := true }

/-!
## The overlay blend operator (fragment shader, lines 209 to 211)
-/

/-- `blendOverlay(base, blend)` from the fragment shader:
`base < 0.5 ? 2 * base * blend : 1 - 2 * (1 - base) * (1 - blend)`. -/
def blendOverlay (base blend : ℚ) : ℚ :=
  if base < 1/2 then 2 * base * blend else 1 - 2 * (1 - base) * (1 - blend)

/-!
## Claims
-/

/-- Claim C1 (corrected): the back-face guard at line 72 skips the frame
exactly when the camera-to-surface vector has STRICTLY POSITIVE dot product
with the normal, leaving the host state untouched; whenever the dot product
is nonpositive (including exactly zero) the reflection computation
executes.  The claim's boundary case is wrong: at dot product zero the code
proceeds, see `guard_boundary_counterexample`. -/
theorem back_face_guard (inp : FrameInput) (host : HostState) :
    (0 < viewDotNormal inp → onBeforeRender inp host = (none, host)) ∧
    (viewDotNormal inp ≤ 0 → (onBeforeRender inp host).1 = some (frameEffects inp)) := by
  constructor
  · intro h
    simp [onBeforeRender, h]
  · intro h
    simp [onBeforeRender, not_lt.2 h]

/-- Witness for `back_face_guard`: a camera behind the mirror
(`behindMirrorInput`, dot product `5 > 0`) makes the hook return with the
host state untouched. -/
theorem back_face_guard_witness :
    0 < viewDotNormal behindMirrorInput ∧
    onBeforeRender behindMirrorInput hostEmpty = (none, hostEmpty) := by
  have hpos : 0 < viewDotNormal behindMirrorInput := by
    norm_num [viewDotNormal, reflectorWorldPositionOf, normalOf, behindMirrorInput, sampleInput,
      identityMat4, Mat4.set, Mat4.position, Vec3.sub, Vec3.dot, Vec3.applyMatrix4]
  exact ⟨hpos, (back_face_guard behindMirrorInput hostEmpty).1 hpos⟩

/-- Counterexample to claim C1 as stated: with the camera exactly on the
mirror plane (`onPlaneInput`) the camera-to-surface dot product is `0` —
non-negative, so the claim demands a skip with prior state untouched — yet
the reflection computation executes and mutates the host state. -/
theorem guard_boundary_counterexample :
    viewDotNormal onPlaneInput = 0 ∧
    (onBeforeRender onPlaneInput hostEmpty).1 = some (frameEffects onPlaneInput) ∧
    (onBeforeRender onPlaneInput hostEmpty).2 ≠ hostEmpty := by
  have h0 : viewDotNormal onPlaneInput = 0 := by
    norm_num [viewDotNormal, reflectorWorldPositionOf, normalOf, onPlaneInput, sampleInput,
      identityMat4, Mat4.set, Mat4.position, Vec3.sub, Vec3.dot, Vec3.applyMatrix4]
  refine ⟨h0, ?_, ?_⟩
  · simp [onBeforeRender, h0]
  · simp [onBeforeRender, h0, renderSection, hostEmpty]

/-- Claim C2: after the oblique clip adjustment the virtual camera's
projection matrix agrees with the real camera's projection matrix on all
twelve elements outside positions 2, 6, 10, 14, and those four positions
hold the scaled clip-plane row (with the `+ 1 - clipBias` offset on
element 10) — for every frame input and every `clipBias`. -/
theorem oblique_third_row_only (inp : FrameInput) :
    (∀ i : Fin 16, i.val ≠ 2 → i.val ≠ 6 → i.val ≠ 10 → i.val ≠ 14 →
      (adjustedProjection inp).el i = inp.cameraProjection.el i) ∧
    (adjustedProjection inp).el 2 = (scaledClipPlane inp).x ∧
    (adjustedProjection inp).el 6 = (scaledClipPlane inp).y ∧
    (adjustedProjection inp).el 10 = (scaledClipPlane inp).z + 1 - inp.clipBias ∧
    (adjustedProjection inp).el 14 = (scaledClipPlane inp).w := by
  refine ⟨?_, rfl, rfl, rfl, rfl⟩
  intro i h2 h6 h10 h14
  fin_cases i <;> first | rfl | simp_all

/-- Witness for `oblique_third_row_only` at the concrete frame
`sampleInput`: element 0 is untouched and element 10 carries the offset
clip-plane entry. -/
theorem oblique_third_row_only_witness :
    (adjustedProjection sampleInput).el 0 = sampleInput.cameraProjection.el 0 ∧
    (adjustedProjection sampleInput).el 10 =
      (scaledClipPlane sampleInput).z + 1 - sampleInput.clipBias :=
  ⟨(oblique_third_row_only sampleInput).1 0 (by decide) (by decide) (by decide) (by decide),
   (oblique_third_row_only sampleInput).2.2.2.1⟩

/-- Claim C3: for every frame, the projection rewrite performed by the code
(lines 111 to 130) coincides with the algorithm as section 4.2 of the
specification words it — `q` from the (8,9,10,14) elements and the signs of
the view-space plane normal, plane scaled by `2 / (plane . q)`, scaled
plane's `(x, y, z + 1 - clipBias, w)` written into elements (2,6,10,14). -/
theorem oblique_adjust_matches_spec (inp : FrameInput) :
    adjustedProjection inp =
      obliqueSpecAdjust inp.cameraProjection (viewClipPlane inp) inp.clipBias := rfl

/-- Claim C4 (corrected): the texture matrix is
`bias * P * view * world` where `P` is the projection matrix BEFORE the
oblique clip adjustment — the verbatim copy of the real camera's projection
made at line 96 — not the adjusted matrix the offscreen render is issued
with.  The two renders' matrices diverge in the third row, see
`texture_matrix_render_divergence`. -/
theorem texture_matrix_composition (inp : FrameInput) :
    (frameEffects inp).textureMatrix =
      mat4Mul (mat4Mul (mat4Mul biasMatrix inp.cameraProjection) inp.virtualViewMatrix)
        inp.reflectorMatrixWorld := rfl

/-- Counterexample to claim C4 as stated: at the concrete frame
`sampleInput` the offscreen render is issued with the oblique-adjusted
projection matrix (first conjunct, read off the render log), yet the bias
product built from that same matrix differs from the texture matrix the
code computed (second conjunct, element 10: `-3/2` versus `3/2`). -/
theorem texture_matrix_render_divergence :
    ((onBeforeRender sampleInput hostEmpty).2.events.map fun ev => (ev.cam, ev.projection)) =
      [(Cam.virtual, adjustedProjection sampleInput), (Cam.real, sampleInput.cameraProjection)] ∧
    (textureMatrixOf sampleInput).e10 ≠
      (mat4Mul (mat4Mul (mat4Mul biasMatrix (adjustedProjection sampleInput))
        sampleInput.virtualViewMatrix) sampleInput.reflectorMatrixWorld).e10 := by
  have h : ¬ 0 < viewDotNormal sampleInput := by
    norm_num [viewDotNormal, reflectorWorldPositionOf, normalOf, sampleInput, identityMat4,
      Mat4.set, Mat4.position, Vec3.sub, Vec3.dot, Vec3.applyMatrix4]
  constructor
  · simp [onBeforeRender, h, renderSection, frameEffects, hostEmpty]
  · norm_num [textureMatrixOf, biasMatrix, mat4Mul, adjustedProjection, scaledClipPlane,
      obliqueQ, mathSign, Vec4.multiplyScalar, Vec4.dot, viewClipPlane, worldReflectorPlane,
      Plane.setFromNormalAndCoplanarPoint, Plane.applyMatrix4, getNormalMatrix, mat3Transpose,
      mat3Invert, mat3SetFromMatrix4, normalOf, reflectorWorldPositionOf, sampleInput,
      identityMat4, Mat4.set, Mat4.position, Vec3.applyMatrix4, Vec3.applyMatrix3,
      Vec3.multiplyScalar, Vec3.dot]

/-- Claim C5 is a code bug; this theorem evaluates the code at the failing
entry state `entryHost` (render target handle 7 bound, XR enabled, shadow
auto-update enabled).  The code saves the render target only AFTER forcing
it to null (lines 139, 143), so the hook exits with the target reset to
null instead of handle 7; and it clears the XR and shadow flags only AFTER
the offscreen render (lines 137, 148, 149), so both renders (see the log)
run with the flags still enabled — nothing was neutralized for the
reflection render.  Only the flags themselves end up back at their entry
values. -/
theorem renderer_state_not_restored :
    entryHost.renderer.target = some 7 ∧
    (onBeforeRender sampleInput entryHost).2.renderer.target = none ∧
    ((onBeforeRender sampleInput entryHost).2.events.map fun ev =>
        (ev.cam, ev.xrEnabled, ev.shadowAutoUpdate)) =
      [(Cam.virtual, true, true), (Cam.real, true, true)] ∧
    (onBeforeRender sampleInput entryHost).2.renderer.xrEnabled = true ∧
    (onBeforeRender sampleInput entryHost).2.renderer.shadowAutoUpdate = true := by
  have h : ¬ 0 < viewDotNormal sampleInput := by
    norm_num [viewDotNormal, reflectorWorldPositionOf, normalOf, sampleInput, identityMat4,
      Mat4.set, Mat4.position, Vec3.sub, Vec3.dot, Vec3.applyMatrix4]
  refine ⟨rfl, ?_, ?_, ?_, ?_⟩ <;> simp [onBeforeRender, h, renderSection, entryHost]

/-- Claim C6 (corrected): in every non-skipped frame the hook hides the
surface, ITSELF issues a render of the scene with the real camera (line
158 — it is not delegated to the host loop), then unhides the surface:
the render log gains exactly the offscreen virtual-camera render followed
by a real-camera render performed with the surface hidden, and the surface
is visible again when the hook returns. -/
theorem hide_self_render_unhide (inp : FrameInput) (host : HostState)
    (h : viewDotNormal inp ≤ 0) :
    (onBeforeRender inp host).2.events =
      host.events ++ [offscreenRenderEvent (frameEffects inp) host, mainRenderEvent inp host] ∧
    (mainRenderEvent inp host).cam = Cam.real ∧
    (mainRenderEvent inp host).surfaceVisible = false ∧
    (onBeforeRender inp host).2.surfaceVisible = true := by
  have hn : ¬ 0 < viewDotNormal inp := not_lt.2 h
  refine ⟨?_, rfl, rfl, ?_⟩ <;>
    simp [onBeforeRender, hn, renderSection, offscreenRenderEvent, mainRenderEvent]

/-- Witness for `hide_self_render_unhide` at the concrete frame
`sampleInput`. -/
theorem hide_self_render_unhide_witness :
    viewDotNormal sampleInput ≤ 0 ∧
    (onBeforeRender sampleInput hostEmpty).2.events =
      hostEmpty.events ++
        [offscreenRenderEvent (frameEffects sampleInput) hostEmpty,
         mainRenderEvent sampleInput hostEmpty] := by
  have h : viewDotNormal sampleInput ≤ 0 := by
    norm_num [viewDotNormal, reflectorWorldPositionOf, normalOf, sampleInput, identityMat4,
      Mat4.set, Mat4.position, Vec3.sub, Vec3.dot, Vec3.applyMatrix4]
  exact ⟨h, (hide_self_render_unhide sampleInput hostEmpty h).1⟩

/-- Counterexample to claim C6 as stated: the claim says the core performs
no scene render with the real camera, yet at the concrete frame
`sampleInput` the hook's own render log contains a real-camera render call
(line 158). -/
theorem hook_issues_real_camera_render :
    Cam.real ∈ ((onBeforeRender sampleInput hostEmpty).2.events.map RenderEvent.cam) := by
  have h : ¬ 0 < viewDotNormal sampleInput := by
    norm_num [viewDotNormal, reflectorWorldPositionOf, normalOf, sampleInput, identityMat4,
      Mat4.set, Mat4.position, Vec3.sub, Vec3.dot, Vec3.applyMatrix4]
  simp [onBeforeRender, h, renderSection]

/-- Claim C7: for the horizontal mirror at `y = 0` with world normal
`(0,1,0)` and the real camera at `(0,5,10)` — whatever the camera's
orientation and the remaining inputs — the frame is not skipped
(dot product `-5 < 0`), the mirror derivation places the virtual camera at
`(0,-5,10)`, and the virtual camera's up vector is exactly the reflection
(no negation) of the camera's world up vector across the normal `(0,1,0)`,
preserving the un-flipped screen orientation. -/
theorem mirror_camera_horizontal_scenario (camRot proj view : Mat4) (far bias : ℚ) :
    viewDotNormal (c7Input camRot proj view far bias) < 0 ∧
    virtualCameraPosition (c7Input camRot proj view far bias) = ⟨0, -5, 10⟩ ∧
    virtualCameraUp (c7Input camRot proj view far bias) =
      Vec3.reflect (Vec3.applyMatrix4 ⟨0, 1, 0⟩ camRot) ⟨0, 1, 0⟩ := by
  refine ⟨?_, ?_, ?_⟩
  · norm_num [viewDotNormal, reflectorWorldPositionOf, normalOf, c7Input,
      horizontalMirrorMatrix, Mat4.set, Mat4.position, Vec3.sub, Vec3.dot, Vec3.applyMatrix4]
  · norm_num [virtualCameraPosition, reflectorWorldPositionOf, normalOf, c7Input,
      horizontalMirrorMatrix, Mat4.set, Mat4.position, Vec3.sub, Vec3.add, Vec3.neg,
      Vec3.reflect, Vec3.multiplyScalar, Vec3.dot, Vec3.applyMatrix4]
  · norm_num [virtualCameraUp, normalOf, c7Input, horizontalMirrorMatrix, Mat4.set,
      Mat4.position, Vec3.reflect, Vec3.multiplyScalar, Vec3.sub, Vec3.dot, Vec3.applyMatrix4]

/-- Claim C8 is a code bug; this theorem evaluates the constructor.  The
`opacity` uniform handed to the shading stage keeps the cloned shader
default `0.3` (line 187) for every construction — the constructor never
assigns `material.uniforms.opacity` — so it does not equal the configured
opacity option (default `1.0`, here also tried as `0.8`), while the
texture matrix, the tint color and the render target's texture ARE wired
(lines 51 to 53). -/
theorem opacity_uniform_not_wired :
    (mkReflector {}).uniforms.opacity = 3/10 ∧
    jsOrQ ({} : ReflectorOptions).opacity 1 = 1 ∧
    (mkReflector {}).uniforms.opacity ≠ jsOrQ ({} : ReflectorOptions).opacity 1 ∧
    (mkReflector { opacity := some (4/5) }).uniforms.opacity = 3/10 ∧
    (mkReflector {}).uniforms.color = some 0x7F7F7F ∧
    (mkReflector {}).uniforms.tDiffuse = some renderTargetTexture ∧
    (mkReflector {}).uniforms.textureMatrixBound = true := by
  refine ⟨rfl, rfl, ?_, rfl, rfl, rfl, rfl⟩
  norm_num [mkReflector, clonedDefaultUniforms, jsOrQ]

/-- Claim C9: the fragment shader's overlay operator satisfies
`blendOverlay 0 x = 0`, `blendOverlay 1 x = 1` and
`blendOverlay (1/2) x = x` for every `x` in `[0,1]`. -/
theorem blendOverlay_anchors (x : ℚ) (h0 : 0 ≤ x) (h1 : x ≤ 1) :
    blendOverlay 0 x = 0 ∧ blendOverlay 1 x = 1 ∧ blendOverlay (1/2) x = x := by
  refine ⟨?_, ?_, ?_⟩
  · norm_num [blendOverlay]
  · norm_num [blendOverlay]
  · simp only [blendOverlay]
    norm_num

/-- Witness for `blendOverlay_anchors` at `x = 1/2`. -/
theorem blendOverlay_anchors_witness :
    ((0:ℚ) ≤ 1/2 ∧ (1/2:ℚ) ≤ 1) ∧
    (blendOverlay 0 (1/2) = 0 ∧ blendOverlay 1 (1/2) = 1 ∧ blendOverlay (1/2) (1/2) = 1/2) :=
  ⟨⟨by norm_num, by norm_num⟩, blendOverlay_anchors (1/2) (by norm_num) (by norm_num)⟩

/-- Claim C10: one `dispose` call marks both the render target and the
material released, a second call throws nothing (the function is total)
and is a no-op — `dispose` is idempotent from any starting state. -/
theorem dispose_releases_and_idempotent (s : DisposeState) :
    (dispose s).renderTargetDisposed = true ∧ (dispose s).materialDisposed = true ∧
    dispose (dispose s) = dispose s :=
  ⟨rfl, rfl, rfl⟩
